import Mathlib

/-!
Shallow embedding of the Renishaw ECM JSON-RPC client (ecm_run.py and
ecm_custom.py): the request-identifier allocation (ECMConnection.id), the
RPC transport (ECMConnection.call), the completion poller
(ECMConnection.wait), and the call sequence issued by main.
-/

/-- Observable event of a session: an RPC call of a named method, or a
sleep of a given duration in milliseconds. -/
inductive Ev where
  | callEv (method : String)
  | sleepEv (ms : Nat)
deriving DecidableEq, Repr

/-- Outcome of one status query as seen by wait: either the status string
returned by the call, or an ECMException raised by it. -/
inductive QueryResult where
  | ok (status : String)
  | rpcError (message : String)
deriving DecidableEq, Repr

/-- Result of ECMConnection.wait: the final status string, the trace of
RPC calls and sleeps produced, and the final value of the timeout budget. -/
structure WaitResult where
  status : String
  trace : List Ev
  remaining : Int
deriving DecidableEq, Repr

/-- Embedding of the while loop of ECMConnection.wait (identical in both
source files): while status is not COMPLETE and timeout is positive, query
the state (an ECMException leaves status unchanged and is only printed),
sleep 250 ms, and decrement timeout by 250.  The parameter k numbers the
queries so that a query outcome schedule can be supplied as a function. -/
def waitLoop (queries : Nat → QueryResult) (status : String) (timeout : Int)
    (k : Nat) : WaitResult :=
  if h : status ≠ "COMPLETE" ∧ 0 < timeout then
    let status1 :=
      match queries k with
      | QueryResult.ok s => s
      | QueryResult.rpcError _ => status
    let r := waitLoop queries status1 (timeout - 250) (k + 1)
    ⟨r.status, Ev.callEv "Queue.GetMeasurementState" :: Ev.sleepEv 250 :: r.trace,
      r.remaining⟩
  else
    ⟨status, [], timeout⟩
termination_by timeout.toNat
decreasing_by omega

/-- Embedding of ECMConnection.wait from ecm_run.py (the Python default
for timeout is 10000; the pre-loop sleep is commented out there). -/
def ecmRunWait (queries : Nat → QueryResult) (timeout : Int) : WaitResult :=
  waitLoop queries "" timeout 0

/-- Embedding of ECMConnection.wait from ecm_custom.py: the same loop with
one unconditional 250 ms sleep before it. -/
def ecmCustomWait (queries : Nat → QueryResult) (timeout : Int) : WaitResult :=
  let r := waitLoop queries "" timeout 0
  ⟨r.status, Ev.sleepEv 250 :: r.trace, r.remaining⟩

/-- Number of Queue.GetMeasurementState calls in a trace. -/
def numQueries (t : List Ev) : Nat :=
  t.count (Ev.callEv "Queue.GetMeasurementState")

/-- Number of sleep events in a trace. -/
def numSleeps (t : List Ev) : Nat :=
  (t.filter fun e => match e with | Ev.sleepEv _ => true | _ => false).length

/-- Method names of the RPC calls in a trace, in order. -/
def traceMethods (t : List Ev) : List String :=
  t.filterMap fun e => match e with | Ev.callEv m => some m | _ => none

/-- Events strictly after the first call of the given method. -/
def eventsAfterCall (m : String) (t : List Ev) : List Ev :=
  (t.dropWhile fun e => !(e == Ev.callEv m)).tail

/-- Tail of main after wait returns, identical in both source files: on a
non-COMPLETE status, Queue.Abort then a 500 ms grace sleep; then the
unconditional Queue.Remove. -/
def sessionFinish (status : String) : List Ev :=
  (if status ≠ "COMPLETE" then [Ev.callEv "Queue.Abort", Ev.sleepEv 500] else [])
    ++ [Ev.callEv "Queue.Remove"]

/-- Post-release phase of main in ecm_custom.py: Queue.Continue, then the
wait with the caller-configured timeout, then the finish. -/
def ecmCustomRunPhase (queries : Nat → QueryResult) (timeout : Int) : List Ev :=
  let r := ecmCustomWait queries timeout
  Ev.callEv "Queue.Continue" :: (r.trace ++ sessionFinish r.status)

/-- Minimal JSON value model for parameter and result values. -/
inductive Json where
  | null
  | bool (b : Bool)
  | num (n : Int)
  | str (s : String)
  | arr (elems : List Json)
  | obj (fields : List (String × Json))

/-- Connection state: the configured URL and the mutable request
identifier counter (both variants also store the constant headers dict,
carried here in the call embeddings). -/
structure ECMConnection where
  url : String
  _id : Nat

/-- Embedding of ECMConnection.__init__: the counter starts at 0. -/
def ECMConnection.init (url : String) : ECMConnection :=
  ⟨url, 0⟩

/-- Embedding of the id property: return the current counter value and
increment the stored counter (identical in both variants). -/
def ECMConnection.id (c : ECMConnection) : Nat × ECMConnection :=
  (c._id, ⟨c.url, c._id + 1⟩)

/-- JSON-RPC request envelope built by call:
dict(jsonrpc="2.0", id=self.id, method=methodName, params=kwargs). -/
structure RpcRequest where
  jsonrpc : String
  id : Nat
  method : String
  params : List (String × Json)

/-- Everything call passes to requests.post besides the body: the url,
the content-type header value, the timeout (in ms, when one is passed),
and whether the kwargs disable the http proxy (proxies with http None). -/
structure PostRequest where
  url : String
  contentTypeHeader : String
  body : RpcRequest
  timeoutMs : Option Nat
  proxyHttpDisabled : Bool

/-- Embedding of the request-building half of ECMConnection.call in
ecm_run.py: envelope with jsonrpc "2.0", a fresh id, the method name and
kwargs; posted with content-type application/json, timeout 0.2 s (200 ms),
and the http proxy disabled. -/
def ecmRunCall (c : ECMConnection) (methodName : String)
    (kwargs : List (String × Json)) : PostRequest × ECMConnection :=
  let (i, c1) := c.id
  (⟨c.url, "application/json", ⟨"2.0", i, methodName, kwargs⟩, some 200, true⟩, c1)

/-- Embedding of the request-building half of ECMConnection.call in
ecm_custom.py: the same envelope and content-type, the http proxy
disabled, but no timeout argument is passed to requests.post. -/
def ecmCustomCall (c : ECMConnection) (methodName : String)
    (kwargs : List (String × Json)) : PostRequest × ECMConnection :=
  let (i, c1) := c.id
  (⟨c.url, "application/json", ⟨"2.0", i, methodName, kwargs⟩, none, true⟩, c1)

/-- Error member of a JSON-RPC response body. -/
structure RpcErrorObj where
  code : Int
  message : String

/-- Parsed JSON-RPC response body: the error member when present, and the
result member. -/
structure RpcResponseBody where
  error : Option RpcErrorObj
  result : Json

/-- Outcome of a call: the returned result, or a raised ECMException. -/
inductive CallOutcome where
  | ok (result : Json)
  | ecmError (message : String)

/-- Embedding of the response-handling half of ECMConnection.call,
identical in both variants: on HTTP status requests.codes.ok (200), raise
ECMException with the error member message when the body has one, else
return the result member; on any other status raise ECMException with the
raw response text. -/
def processResponse (status_code : Nat) (body : RpcResponseBody)
    (text : String) : CallOutcome :=
  if status_code = 200 then
    match body.error with
    | some e => CallOutcome.ecmError e.message
    | none => CallOutcome.ok body.result
  else
    CallOutcome.ecmError text

/-- Issue a sequence of calls on one connection, collecting the built
post requests in order (ecm_run call shown; ecm_custom allocates
identifiers by the same id property). -/
def callSeq (c : ECMConnection) : List String → List PostRequest × ECMConnection
  | [] => ([], c)
  | m :: ms =>
    let (p, c1) := ecmRunCall c m []
    let (ps, c2) := callSeq c1 ms
    (p :: ps, c2)

lemma callSeq_ids (ms : List String) (c : ECMConnection) :
    ((callSeq c ms).1).map (fun p => p.body.id) = List.range' c._id ms.length := by
  induction ms generalizing c with
  | nil => simp [callSeq]
  | cons m ms ih =>
    simp [callSeq, ecmRunCall, ECMConnection.id, ih, List.range'_succ]

/-- Parsed command-line options of ecm_custom.py that drive main's call
sequence.  Payload values are modelled as Json where main only forwards
them. -/
structure CustomOptions where
  exposure : Option Int
  filename : Option String
  accumulations : Option Int
  power : Option Json
  get_laserpowers : Bool
  whitelight : Option Json
  map : Option Json
  series : Option Json
  custom : Option Json
  stage : Option Bool
  triggers : Bool
  send_trigger : Option Int
  timeout : Int

/-- Argparse result for ecm_custom.py when no optional flag is supplied:
value options default to None, store_true flags to False, timeout to
60000.  The dest stage is shared by two actions: the first registered one
is store_false (default True), so parse_args sets stage to True when
neither stage flag is given — stage is a Bool, never None. -/
def defaultCustomOptions : CustomOptions :=
  ⟨none, none, none, none, false, none, none, none, none, some true, false, none, 60000⟩

/-- Embedding of the RPC method-name sequence issued by main in
ecm_custom.py, in source order: the send-trigger short-circuit; Queue.Add;
the conditional configuration calls; the laser-powers short-circuit;
Queue.Continue; the wait queries; and the finish (abort on a non-COMPLETE
status, then Queue.Remove). -/
def ecmCustomMainMethods (opts : CustomOptions)
    (queries : Nat → QueryResult) : List String :=
  if opts.send_trigger.isSome then
    ["Measurement.Trigger"]
  else
    ["Queue.Add"]
    ++ (if opts.exposure.isSome then ["Measurement.SetExposure"] else [])
    ++ (if opts.filename.isSome then ["Measurement.SetFilename"] else [])
    ++ (if opts.accumulations.isSome then ["Measurement.SetAccumulations"] else [])
    ++ (if opts.power.isSome then ["Measurement.SetLaserPower"] else [])
    ++ (if opts.get_laserpowers then
          ["Measurement.GetLaserPowers", "Queue.Remove"]
        else
          (if opts.whitelight.isSome then ["Measurement.SetImage"] else [])
          ++ (if opts.map.isSome then ["Measurement.SetMap"] else [])
          ++ (if opts.series.isSome then ["Measurement.SetMap"] else [])
          ++ (if opts.custom.isSome then ["Measurement.SetMapCustomAxis"] else [])
          ++ (if opts.stage.isSome then ["Measurement.SetMapUseStage"] else [])
          ++ (if opts.triggers then ["Measurement.SetMapTriggerMode"] else [])
          ++ ["Queue.Continue"]
          ++ traceMethods (ecmCustomWait queries opts.timeout).trace
          ++ traceMethods (sessionFinish (ecmCustomWait queries opts.timeout).status))

/-- Attribute names available on an ecm_run ECMConnection object: the
fields set in __init__ plus its methods. -/
def ecmRunConnectionAttrs : List String :=
  ["url", "_id", "headers", "id", "call", "wait"]

/-- Python attribute lookup on the connection object: AttributeError when
the name is not defined on it. -/
def getattrConn (name : String) : Except String Unit :=
  if name ∈ ecmRunConnectionAttrs then Except.ok ()
  else Except.error ("AttributeError: ECMConnection object has no attribute " ++ name)

/-- Embedding of the accumulations step of main in ecm_run.py: when the
option is supplied, it issues Measurement.SetAccumulations and then
evaluates the leftover expression ecm.Measurement.SetAccumulation(handle,
10), whose first step is the attribute lookup ecm.Measurement.  Returns
the RPC methods called and the outcome of the step. -/
def ecmRunAccumStep (accumulations : Option Int) :
    List String × Except String Unit :=
  match accumulations with
  | none => ([], Except.ok ())
  | some _ => (["Measurement.SetAccumulations"], getattrConn "Measurement")

/-- Embedding of the accumulations step of main in ecm_custom.py: one
call when the option is supplied, nothing else. -/
def ecmCustomAccumStep (accumulations : Option Int) :
    List String × Except String Unit :=
  match accumulations with
  | none => ([], Except.ok ())
  | some _ => (["Measurement.SetAccumulations"], Except.ok ())

/-- Status schedule of the C1 scenario: RUNNING on the first three
queries, COMPLETE from the fourth on. -/
def c1Queries : Nat → QueryResult := fun k =>
  QueryResult.ok (if k < 3 then "RUNNING" else "COMPLETE")

lemma c1RunEval :
    ecmRunWait c1Queries 1000 =
      ⟨"COMPLETE",
        [Ev.callEv "Queue.GetMeasurementState", Ev.sleepEv 250,
         Ev.callEv "Queue.GetMeasurementState", Ev.sleepEv 250,
         Ev.callEv "Queue.GetMeasurementState", Ev.sleepEv 250,
         Ev.callEv "Queue.GetMeasurementState", Ev.sleepEv 250], 0⟩ := by
  simp [c1Queries, ecmRunWait, waitLoop, show ¬("RUNNING" = "COMPLETE") by decide]

lemma c1CustomEval :
    ecmCustomWait c1Queries 1000 =
      ⟨"COMPLETE",
        [Ev.sleepEv 250,
         Ev.callEv "Queue.GetMeasurementState", Ev.sleepEv 250,
         Ev.callEv "Queue.GetMeasurementState", Ev.sleepEv 250,
         Ev.callEv "Queue.GetMeasurementState", Ev.sleepEv 250,
         Ev.callEv "Queue.GetMeasurementState", Ev.sleepEv 250], 0⟩ := by
  simp [c1Queries, ecmCustomWait, waitLoop, show ¬("RUNNING" = "COMPLETE") by decide]

/-- C1, counterexample: with timeout 1000 and statuses RUNNING three times
then COMPLETE, the ecm_run wait does return COMPLETE after exactly 4
status queries, but it sleeps 4 intervals, not the 3 the claim states:
the loop body sleeps after every query, the completing one included. -/
theorem c1_counterexample :
    (ecmRunWait c1Queries 1000).status = "COMPLETE" ∧
    numQueries (ecmRunWait c1Queries 1000).trace = 4 ∧
    ¬ numSleeps (ecmRunWait c1Queries 1000).trace = 3 := by
  rw [c1RunEval]
  decide

/-- C1, amended: with timeout 1000 and statuses RUNNING three times then
COMPLETE, wait returns COMPLETE after exactly 4 status queries and sleeps
exactly 4 intervals of 250 in ecm_run, and 5 sleeps in ecm_custom, whose
wait sleeps once more before the loop. -/
theorem c1_complete_after_four_queries :
    (ecmRunWait c1Queries 1000).status = "COMPLETE" ∧
    numQueries (ecmRunWait c1Queries 1000).trace = 4 ∧
    numSleeps (ecmRunWait c1Queries 1000).trace = 4 ∧
    (ecmCustomWait c1Queries 1000).status = "COMPLETE" ∧
    numQueries (ecmCustomWait c1Queries 1000).trace = 4 ∧
    numSleeps (ecmCustomWait c1Queries 1000).trace = 5 := by
  rw [c1RunEval, c1CustomEval]
  decide

/-- C2: with timeout budget 500 and a status query that never returns
COMPLETE, wait returns a non-COMPLETE status after exactly 2 status
queries, the budget having reached 0 after two 250-unit decrements (same
query count in the ecm_custom variant). -/
theorem c2_times_out_after_two_queries (queries : Nat → QueryResult)
    (h : ∀ k s, queries k = QueryResult.ok s → s ≠ "COMPLETE") :
    (ecmRunWait queries 500).status ≠ "COMPLETE" ∧
    numQueries (ecmRunWait queries 500).trace = 2 ∧
    (ecmRunWait queries 500).remaining = 0 ∧
    numQueries (ecmCustomWait queries 500).trace = 2 := by
  rcases h0 : queries 0 with s0 | m0 <;> rcases h1 : queries 1 with s1 | m1
  · have hn0 := h 0 s0 h0
    have hn1 := h 1 s1 h1
    simp [ecmRunWait, ecmCustomWait, waitLoop, numQueries, h0, h1, hn0, hn1,
      show ¬("" = "COMPLETE") by decide]
  · have hn0 := h 0 s0 h0
    simp [ecmRunWait, ecmCustomWait, waitLoop, numQueries, h0, h1, hn0,
      show ¬("" = "COMPLETE") by decide]
  · have hn1 := h 1 s1 h1
    simp [ecmRunWait, ecmCustomWait, waitLoop, numQueries, h0, h1, hn1,
      show ¬("" = "COMPLETE") by decide]
  · simp [ecmRunWait, ecmCustomWait, waitLoop, numQueries, h0, h1,
      show ¬("" = "COMPLETE") by decide]

/-- C2, witness: the schedule that always answers RUNNING never returns
COMPLETE, and with budget 500 wait stops after exactly 2 queries. -/
theorem c2_witness :
    (ecmRunWait (fun _ => QueryResult.ok "RUNNING") 500).status ≠ "COMPLETE" ∧
    numQueries (ecmRunWait (fun _ => QueryResult.ok "RUNNING") 500).trace = 2 ∧
    (ecmRunWait (fun _ => QueryResult.ok "RUNNING") 500).remaining = 0 ∧
    numQueries (ecmCustomWait (fun _ => QueryResult.ok "RUNNING") 500).trace = 2 :=
  c2_times_out_after_two_queries (fun _ => QueryResult.ok "RUNNING")
    (by intro k s hs; simp at hs; subst hs; decide)

/-- C3: an ECMException raised by the first status query is non-fatal:
with any budget above 250, a schedule that raises on query 0 and answers
COMPLETE on query 1 still ends with status COMPLETE after exactly 2
queries, the budget having been decremented 250 for the failed query just
as for a non-complete status. -/
theorem c3_rpc_error_nonfatal (queries : Nat → QueryResult) (timeout : Int)
    (msg : String) (hbudget : 250 < timeout)
    (h0 : queries 0 = QueryResult.rpcError msg)
    (h1 : queries 1 = QueryResult.ok "COMPLETE") :
    (ecmRunWait queries timeout).status = "COMPLETE" ∧
    numQueries (ecmRunWait queries timeout).trace = 2 ∧
    (ecmRunWait queries timeout).remaining = timeout - 500 ∧
    (ecmCustomWait queries timeout).status = "COMPLETE" := by
  have ht : (0:Int) < timeout := by omega
  have ht2 : (0:Int) < timeout - 250 := by omega
  refine ⟨?_, ?_, ?_, ?_⟩ <;>
    simp [ecmRunWait, ecmCustomWait, waitLoop, numQueries, h0, h1, ht, ht2,
      show ¬("" = "COMPLETE") by decide]
  omega

/-- C3, witness: a schedule raising ECMException on query 0 and answering
COMPLETE on query 1, with budget 1000, ends COMPLETE after 2 queries. -/
theorem c3_witness :
    (ecmRunWait (fun k => if k = 0 then QueryResult.rpcError "connection refused"
        else QueryResult.ok "COMPLETE") 1000).status = "COMPLETE" ∧
    numQueries (ecmRunWait (fun k => if k = 0 then QueryResult.rpcError "connection refused"
        else QueryResult.ok "COMPLETE") 1000).trace = 2 ∧
    (ecmRunWait (fun k => if k = 0 then QueryResult.rpcError "connection refused"
        else QueryResult.ok "COMPLETE") 1000).remaining = 1000 - 500 ∧
    (ecmCustomWait (fun k => if k = 0 then QueryResult.rpcError "connection refused"
        else QueryResult.ok "COMPLETE") 1000).status = "COMPLETE" :=
  c3_rpc_error_nonfatal
    (fun k => if k = 0 then QueryResult.rpcError "connection refused"
      else QueryResult.ok "COMPLETE")
    1000 "connection refused" (by decide) (by rfl) (by rfl)

lemma c4Eval :
    ecmCustomRunPhase (fun _ => QueryResult.ok "RUNNING") 250 =
      [Ev.callEv "Queue.Continue", Ev.sleepEv 250,
       Ev.callEv "Queue.GetMeasurementState", Ev.sleepEv 250,
       Ev.callEv "Queue.Abort", Ev.sleepEv 500, Ev.callEv "Queue.Remove"] := by
  simp [ecmCustomRunPhase, ecmCustomWait, waitLoop, sessionFinish,
    show ¬("RUNNING" = "COMPLETE") by decide, show ¬("" = "COMPLETE") by decide]

/-- C4: on the timeout path (status always RUNNING, configured timeout
250) the post-release phase of main issues exactly one Queue.Abort and
exactly one Queue.Remove, and after the abort come exactly the 500 ms
grace sleep and the Queue.Remove — in particular no further
Queue.GetMeasurementState query. -/
theorem c4_timeout_abort_then_remove :
    (ecmCustomRunPhase (fun _ => QueryResult.ok "RUNNING") 250).count
        (Ev.callEv "Queue.Abort") = 1 ∧
    (ecmCustomRunPhase (fun _ => QueryResult.ok "RUNNING") 250).count
        (Ev.callEv "Queue.Remove") = 1 ∧
    eventsAfterCall "Queue.Abort"
        (ecmCustomRunPhase (fun _ => QueryResult.ok "RUNNING") 250) =
      [Ev.sleepEv 500, Ev.callEv "Queue.Remove"] := by
  rw [c4Eval]
  decide

/-- C5: for every sequence of N calls issued through one freshly
constructed connection, the identifiers placed in the JSON-RPC envelopes
are exactly 0, 1, ..., N-1 in call order. -/
theorem c5_ids_are_range (url : String) (ms : List String) :
    ((callSeq (ECMConnection.init url) ms).1).map (fun p => p.body.id) =
      List.range ms.length := by
  rw [callSeq_ids]
  simp [ECMConnection.init, List.range_eq_range']

/-- C6: an HTTP-success response whose body carries an error object with
fields code and message makes call raise ECMException with exactly the
nested message, whatever the code and whatever result member accompanies
it, and no result is returned. -/
theorem c6_error_message_raised (code : Int) (message : String)
    (result : Json) (text : String) :
    processResponse 200 ⟨some ⟨code, message⟩, result⟩ text =
        CallOutcome.ecmError message ∧
    ∀ v, processResponse 200 ⟨some ⟨code, message⟩, result⟩ text ≠
        CallOutcome.ok v := by
  refine ⟨rfl, fun v h => ?_⟩
  simp [processResponse] at h

/-- C7, counterexample: the ecm_custom variant of call passes no timeout
at all to requests.post, so no sub-second timeout is enforced there,
already on the very first call of a fresh connection. -/
theorem c7_counterexample :
    ¬ ∃ t, ((ecmCustomCall (ECMConnection.init "http://localhost:9880/api/")
        "Queue.Add" []).1).timeoutMs = some t ∧ t < 1000 := by
  simp [ecmCustomCall, ECMConnection.init, ECMConnection.id]

/-- C7, amended: every call in both variants posts with content-type
application/json and the http proxy bypassed; a sub-second timeout
(200 ms) is enforced only in the ecm_run variant, while the ecm_custom
variant passes no timeout. -/
theorem c7_post_configuration (c : ECMConnection) (m : String)
    (kwargs : List (String × Json)) :
    ((ecmRunCall c m kwargs).1).contentTypeHeader = "application/json" ∧
    ((ecmRunCall c m kwargs).1).proxyHttpDisabled = true ∧
    ((ecmRunCall c m kwargs).1).timeoutMs = some 200 ∧
    ((ecmCustomCall c m kwargs).1).contentTypeHeader = "application/json" ∧
    ((ecmCustomCall c m kwargs).1).proxyHttpDisabled = true ∧
    ((ecmCustomCall c m kwargs).1).timeoutMs = none :=
  ⟨rfl, rfl, rfl, rfl, rfl, rfl⟩

/-- C8: with no optional flag supplied (the argparse defaults), the
ecm_custom main still issues Measurement.SetMapUseStage — the shared dest
stage defaults to True, never None, so the guard around the stage call
never skips it.  The full method sequence of a default session whose
first status query answers COMPLETE is shown. -/
theorem c8_stage_call_not_skipped :
    ecmCustomMainMethods defaultCustomOptions (fun _ => QueryResult.ok "COMPLETE") =
      ["Queue.Add", "Measurement.SetMapUseStage", "Queue.Continue",
       "Queue.GetMeasurementState", "Queue.Remove"] := by
  simp [ecmCustomMainMethods, defaultCustomOptions, ecmCustomWait, waitLoop,
    sessionFinish, traceMethods, show ¬("" = "COMPLETE") by decide]

/-- C9: with the accumulations option supplied, the ecm_run variant does
issue exactly one Measurement.SetAccumulations call but then evaluates
the leftover ecm.Measurement.SetAccumulation(handle, 10), whose attribute
lookup raises AttributeError instead of returning normally; the
ecm_custom variant issues the one call and returns normally. -/
theorem c9_leftover_attribute_error :
    (ecmRunAccumStep (some 10)).1 = ["Measurement.SetAccumulations"] ∧
    (ecmRunAccumStep (some 10)).2 =
      Except.error "AttributeError: ECMConnection object has no attribute Measurement" ∧
    ecmCustomAccumStep (some 10) = (["Measurement.SetAccumulations"], Except.ok ()) := by
  refine ⟨rfl, ?_, rfl⟩
  simp [ecmRunAccumStep, getattrConn, ecmRunConnectionAttrs]

/-- C10: for any status schedule, wait with a timeout budget at most 0
performs zero status queries and returns the empty string in both
variants, and on that empty (non-COMPLETE) status the caller's finish is
exactly Queue.Abort, the grace sleep, then Queue.Remove. -/
theorem c10_nonpositive_budget (queries : Nat → QueryResult) (timeout : Int)
    (h : timeout ≤ 0) :
    (ecmRunWait queries timeout).status = "" ∧
    numQueries (ecmRunWait queries timeout).trace = 0 ∧
    (ecmCustomWait queries timeout).status = "" ∧
    numQueries (ecmCustomWait queries timeout).trace = 0 ∧
    sessionFinish (ecmRunWait queries timeout).status =
      [Ev.callEv "Queue.Abort", Ev.sleepEv 500, Ev.callEv "Queue.Remove"] := by
  have h0 : ¬ (0:Int) < timeout := by omega
  simp [ecmRunWait, ecmCustomWait, waitLoop, numQueries, sessionFinish, h0,
    show ¬("" = "COMPLETE") by decide]

/-- C10, witness: with budget 0 and an always-RUNNING schedule, wait
performs no query, returns the empty string, and the finish is abort,
grace sleep, remove. -/
theorem c10_witness :
    (ecmRunWait (fun _ => QueryResult.ok "RUNNING") 0).status = "" ∧
    numQueries (ecmRunWait (fun _ => QueryResult.ok "RUNNING") 0).trace = 0 ∧
    (ecmCustomWait (fun _ => QueryResult.ok "RUNNING") 0).status = "" ∧
    numQueries (ecmCustomWait (fun _ => QueryResult.ok "RUNNING") 0).trace = 0 ∧
    sessionFinish (ecmRunWait (fun _ => QueryResult.ok "RUNNING") 0).status =
      [Ev.callEv "Queue.Abort", Ev.sleepEv 500, Ev.callEv "Queue.Remove"] :=
  c10_nonpositive_budget (fun _ => QueryResult.ok "RUNNING") 0 (by decide)
